import Mathlib

/-!
Verification development for the simulation core of the `rusty-wasm-game`
side-scrolling runner (src/game.rs, src/segment.rs).

The data model and the operations are translated directly from the Rust
sources.  Machine integers: `frame` is a Rust `u8` counter that the code only
ever increments below a bound of at most 35 and otherwise resets to 0, so it is
modelled as `Nat`; positions, velocities and timeline coordinates are Rust
`i16` values that stay far from the representation bounds in every state the
game constructs, so they are modelled as `Int`.

The geometry primitives (`Rect`, `Image`) live in `engine.rs`, which is not
among the provided sources; those definitions are modelled from the spec and
marked as such.  Audio handles and sprite-sheet data influence no control flow
in the claims under study (they are only played or drawn), so they are omitted
from the context; the collision box of the character, which the code derives
from sprite-sheet data, is passed as an explicit rectangle parameter to the
collision checks.
-/

/-- 2D integer point (game.rs `Point`); doubles as a velocity vector. -/
structure Point where
  x : Int
  y : Int
deriving DecidableEq

/-- game.rs `HEIGHT`: the canvas height. -/
def HEIGHT : Int := 600

/-- game.rs `TIMELINE_MINIMUM`. -/
def TIMELINE_MINIMUM : Int := 1000

/-- game.rs `OBSTACLE_BUFFER`. -/
def OBSTACLE_BUFFER : Int := 20

/-- red_hat_boy_states `FLOOR`. -/
def FLOOR : Int := 479

/-- red_hat_boy_states `STARTING_POINT`. -/
def STARTING_POINT : Int := -20

/-- red_hat_boy_states `PLAYER_HEIGHT = HEIGHT - FLOOR`. -/
def PLAYER_HEIGHT : Int := HEIGHT - FLOOR

/-- red_hat_boy_states `IDLE_FRAMES`. -/
def IDLE_FRAMES : Nat := 29

/-- red_hat_boy_states `RUNNING_FRAMES`. -/
def RUNNING_FRAMES : Nat := 23

/-- red_hat_boy_states `SLIDING_FRAMES`. -/
def SLIDING_FRAMES : Nat := 15

/-- red_hat_boy_states `JUMPING_FRAMES`. -/
def JUMPING_FRAMES : Nat := 35

/-- red_hat_boy_states `FALLING_FRAMES`. -/
def FALLING_FRAMES : Nat := 29

/-- red_hat_boy_states `RUNNING_SPEED`. -/
def RUNNING_SPEED : Int := 4

/-- red_hat_boy_states `JUMP_SPEED` (negative, upward). -/
def JUMP_SPEED : Int := -25

/-- red_hat_boy_states `MAX_VELOCITY` (terminal velocity). -/
def MAX_VELOCITY : Int := 20

/-- red_hat_boy_states `GRAVITY`. -/
def GRAVITY : Int := 1

/-- red_hat_boy_states `RedHatBoyContext`: the physical state of the
character.  The `audio` and `jump_sound` handles of the Rust struct carry no
simulation state and are omitted. -/
structure RedHatBoyContext where
  frame : Nat
  position : Point
  velocity : Point
deriving DecidableEq

/-- `RedHatBoyContext::apply_velocity`: integrate one physics step.
`position.y += velocity.y; velocity.y = min(velocity.y + GRAVITY, MAX_VELOCITY);
position.y = min(position.y, FLOOR)`. -/
def RedHatBoyContext.apply_velocity (c : RedHatBoyContext) : RedHatBoyContext :=
  { c with
    position := { c.position with y := min (c.position.y + c.velocity.y) FLOOR }
    velocity := { c.velocity with y := min (c.velocity.y + GRAVITY) MAX_VELOCITY } }

/-- `RedHatBoyContext::update`: advance the animation frame (increment below
`frame_count`, otherwise wrap to 0), then integrate physics. -/
def RedHatBoyContext.update (c : RedHatBoyContext) (frame_count : Nat) :
    RedHatBoyContext :=
  ({ c with frame := if c.frame < frame_count then c.frame + 1 else 0 }).apply_velocity

/-- `RedHatBoyContext::reset_frame`. -/
def RedHatBoyContext.reset_frame (c : RedHatBoyContext) : RedHatBoyContext :=
  { c with frame := 0 }

/-- `RedHatBoyContext::run_right`: add `RUNNING_SPEED` to `velocity.x`. -/
def RedHatBoyContext.run_right (c : RedHatBoyContext) : RedHatBoyContext :=
  { c with velocity := { c.velocity with x := c.velocity.x + RUNNING_SPEED } }

/-- `RedHatBoyContext::set_vertical_velocity`. -/
def RedHatBoyContext.set_vertical_velocity (c : RedHatBoyContext) (speed : Int) :
    RedHatBoyContext :=
  { c with velocity := { c.velocity with y := speed } }

/-- `RedHatBoyContext::stop`: zero the horizontal velocity. -/
def RedHatBoyContext.stop (c : RedHatBoyContext) : RedHatBoyContext :=
  { c with velocity := { c.velocity with x := 0 } }

/-- `RedHatBoyContext::set_on`: rest on top of a surface whose top edge is at
`position`, i.e. `position.y := position - PLAYER_HEIGHT`. -/
def RedHatBoyContext.set_on (c : RedHatBoyContext) (position : Int) :
    RedHatBoyContext :=
  { c with position := { c.position with y := position - PLAYER_HEIGHT } }

/-- game.rs `RedHatBoyStateMachine`: the six typestate variants, each carrying
the context (the zero-sized phase tags of `RedHatBoyState<S>` add no data). -/
inductive RedHatBoyStateMachine where
  | idle (c : RedHatBoyContext)
  | running (c : RedHatBoyContext)
  | sliding (c : RedHatBoyContext)
  | jumping (c : RedHatBoyContext)
  | falling (c : RedHatBoyContext)
  | knockedOut (c : RedHatBoyContext)
deriving DecidableEq

/-- game.rs `Event`. -/
inductive Event where
  | run
  | slide
  | jump
  | knockOut
  | land (y : Int)
  | update
deriving DecidableEq

/-- `RedHatBoyStateMachine::context`. -/
def RedHatBoyStateMachine.context : RedHatBoyStateMachine → RedHatBoyContext
  | .idle c => c
  | .running c => c
  | .sliding c => c
  | .jumping c => c
  | .falling c => c
  | .knockedOut c => c

/-- `RedHatBoyState<Idle>::update`. -/
def idleUpdate (c : RedHatBoyContext) : RedHatBoyStateMachine :=
  .idle (c.update IDLE_FRAMES)

/-- `RedHatBoyState<Running>::update`. -/
def runningUpdate (c : RedHatBoyContext) : RedHatBoyStateMachine :=
  .running (c.update RUNNING_FRAMES)

/-- `RedHatBoyState<Sliding>::update`: after the context update, stand back up
(the `SlidingEndState::Complete` branch) once the frame counter has reached
`SLIDING_FRAMES`. -/
def slidingUpdate (c : RedHatBoyContext) : RedHatBoyStateMachine :=
  if SLIDING_FRAMES ≤ (c.update SLIDING_FRAMES).frame then
    .running (c.update SLIDING_FRAMES).reset_frame
  else
    .sliding (c.update SLIDING_FRAMES)

/-- `RedHatBoyState<Jumping>::update`: after the context update, land on the
ground (`land_on(HEIGHT)`, the `JumpingEndState::Complete` branch) once
`position.y >= FLOOR`. -/
def jumpingUpdate (c : RedHatBoyContext) : RedHatBoyStateMachine :=
  if FLOOR ≤ (c.update JUMPING_FRAMES).position.y then
    .running (((c.update JUMPING_FRAMES).reset_frame).set_on HEIGHT)
  else
    .jumping (c.update JUMPING_FRAMES)

/-- `RedHatBoyState<Falling>::update`: after the context update, become
`KnockedOut` (the `FallingState::Complete` branch, context retained as-is)
once the frame counter has reached `FALLING_FRAMES`. -/
def fallingUpdate (c : RedHatBoyContext) : RedHatBoyStateMachine :=
  if FALLING_FRAMES ≤ (c.update FALLING_FRAMES).frame then
    .knockedOut (c.update FALLING_FRAMES)
  else
    .falling (c.update FALLING_FRAMES)

/-- `RedHatBoyState<KnockedOut>::update`: apply the physics integration only,
without touching the frame counter. -/
def knockedOutUpdate (c : RedHatBoyContext) : RedHatBoyStateMachine :=
  .knockedOut c.apply_velocity

/-- `RedHatBoyStateMachine::transition`: the transition table of game.rs lines
497-529, with the catch-all arm returning the machine unchanged. -/
def RedHatBoyStateMachine.transition (m : RedHatBoyStateMachine) (e : Event) :
    RedHatBoyStateMachine :=
  match m, e with
  | .idle c, .run => .running ((c.reset_frame).run_right)
  | .running c, .slide => .sliding c.reset_frame
  | .running c, .jump => .jumping ((c.set_vertical_velocity JUMP_SPEED).reset_frame)
  | .running c, .knockOut => .falling ((c.reset_frame).stop)
  | .running c, .land y => .running (c.set_on y)
  | .jumping c, .knockOut => .falling ((c.reset_frame).stop)
  | .jumping c, .land y => .running ((c.reset_frame).set_on y)
  | .sliding c, .knockOut => .falling ((c.reset_frame).stop)
  | .sliding c, .land y => .sliding (c.set_on y)
  | .knockedOut c, .land y => .knockedOut (c.set_on y)
  | .idle c, .update => idleUpdate c
  | .running c, .update => runningUpdate c
  | .sliding c, .update => slidingUpdate c
  | .jumping c, .update => jumpingUpdate c
  | .falling c, .update => fallingUpdate c
  | .knockedOut c, .update => knockedOutUpdate c
  | _, _ => m

/-- `RedHatBoyStateMachine::update`. -/
def RedHatBoyStateMachine.update (m : RedHatBoyStateMachine) :
    RedHatBoyStateMachine :=
  m.transition .update

/-- Iterated `update()` ticks. -/
def RedHatBoyStateMachine.updateN (m : RedHatBoyStateMachine) :
    Nat → RedHatBoyStateMachine
  | 0 => m
  | n + 1 => (m.update).updateN n

/-- `RedHatBoyStateMachine::knocked_out`. -/
def RedHatBoyStateMachine.knocked_out : RedHatBoyStateMachine → Bool
  | .knockedOut _ => true
  | _ => false

/-- Variant test: the machine is in the `Idle` state. -/
def RedHatBoyStateMachine.isIdle : RedHatBoyStateMachine → Bool
  | .idle _ => true
  | _ => false

/-- Variant test: the machine is in the `Running` state. -/
def RedHatBoyStateMachine.isRunning : RedHatBoyStateMachine → Bool
  | .running _ => true
  | _ => false

/-- Variant test: the machine is in the `Sliding` state. -/
def RedHatBoyStateMachine.isSliding : RedHatBoyStateMachine → Bool
  | .sliding _ => true
  | _ => false

/-- Variant test: the machine is in the `Jumping` state. -/
def RedHatBoyStateMachine.isJumping : RedHatBoyStateMachine → Bool
  | .jumping _ => true
  | _ => false

/-- Variant test: the machine is in the `Falling` state. -/
def RedHatBoyStateMachine.isFalling : RedHatBoyStateMachine → Bool
  | .falling _ => true
  | _ => false

/-- Variant test: the machine is in the `KnockedOut` state. -/
def RedHatBoyStateMachine.isKnockedOut : RedHatBoyStateMachine → Bool
  | .knockedOut _ => true
  | _ => false

/-- `RedHatBoyState<Idle>::new`: the freshly constructed character context. -/
def initialContext : RedHatBoyContext :=
  { frame := 0
    position := { x := STARTING_POINT, y := FLOOR }
    velocity := { x := 0, y := 0 } }

/-- `RedHatBoy::new` starts (and `RedHatBoy::reset` restarts) the machine in
the `Idle` state with `initialContext`. -/
def initialBoy : RedHatBoyStateMachine := .idle initialContext

/-- Modelled from the spec: `Rect` lives in engine.rs, which is not among the
provided sources.  §2 Geometry: an axis-aligned rectangle with a position
(top-left corner), a width and a height. -/
structure Rect where
  position : Point
  width : Int
  height : Int
deriving DecidableEq

/-- engine.rs `Rect::new_from_x_y` (usage in game.rs/segment.rs). -/
def Rect.new_from_x_y (x y w h : Int) : Rect :=
  { position := { x := x, y := y }, width := w, height := h }

/-- engine.rs `Rect::x`. -/
def Rect.x (r : Rect) : Int := r.position.x

/-- engine.rs `Rect::y`. -/
def Rect.y (r : Rect) : Int := r.position.y

/-- Modelled from the spec: `Rect::right` of engine.rs, the rightmost x. -/
def Rect.right (r : Rect) : Int := r.x + r.width

/-- Bottom edge of a rectangle. -/
def Rect.bottom (r : Rect) : Int := r.y + r.height

/-- Modelled from the spec: the `Rect::intersects` axis-aligned overlap test
of engine.rs (§2 Geometry, "rectangle type with intersection test"). -/
def Rect.intersects (a b : Rect) : Bool :=
  a.x < b.right && b.x < a.right && a.y < b.bottom && b.y < a.bottom

/-- engine.rs `Rect::default()`: the zero rectangle (used by
`Platform::right` when the bounding-box list is empty). -/
def Rect.zeroRect : Rect := Rect.new_from_x_y 0 0 0 0

/-- Modelled from the spec: engine.rs `Image`, reduced to its bounding
rectangle (its position together with the size of the underlying picture),
which is all that `Barrier::check_intersection` and `Barrier::right` use. -/
structure Image where
  boundingBox : Rect
deriving DecidableEq

/-- engine.rs `Image::right`. -/
def Image.right (i : Image) : Int := i.boundingBox.right

/-- game.rs `Barrier`: a single-rectangle hazard. -/
structure Barrier where
  image : Image
deriving DecidableEq

/-- game.rs `Platform`: a position and the absolute collision rectangles.
The sprite list and the sprite sheet only affect `draw` and are omitted. -/
structure Platform where
  position : Point
  bounding_boxes : List Rect
deriving DecidableEq

/-- `Platform::new`: shift every supplied bounding box by the position. -/
def Platform.new (position : Point) (bounding_boxes : List Rect) : Platform :=
  { position := position
    bounding_boxes := bounding_boxes.map fun bb =>
      Rect.new_from_x_y (bb.x + position.x) (bb.y + position.y) bb.width bb.height }

/-- `Barrier::check_intersection`: knock the character out on any overlap of
the character collision box with the barrier rectangle.  The collision box
(`RedHatBoy::bounding_box`, derived from sprite-sheet data) is passed in as
`boyBox`. -/
def Barrier.check_intersection (b : Barrier) (boyBox : Rect)
    (m : RedHatBoyStateMachine) : RedHatBoyStateMachine :=
  if boyBox.intersects b.image.boundingBox then m.transition .knockOut else m

/-- `Platform::check_intersection`: find the first platform rectangle the
character collision box overlaps; land on its top edge when the character is
moving downward with its y above the platform y, otherwise knock out. -/
def Platform.check_intersection (p : Platform) (boyBox : Rect)
    (m : RedHatBoyStateMachine) : RedHatBoyStateMachine :=
  match p.bounding_boxes.find? (fun bb => boyBox.intersects bb) with
  | some box_to_land_on =>
    if 0 < m.context.velocity.y ∧ m.context.position.y < p.position.y then
      m.transition (.land box_to_land_on.y)
    else
      m.transition .knockOut
  | none => m

/-- game.rs `Obstacle` trait, closed over its two implementers. -/
inductive Obstacle where
  | barrier (b : Barrier)
  | platform (p : Platform)
deriving DecidableEq

/-- `Obstacle::right`: `Barrier::right` is the image right edge;
`Platform::right` is the right edge of the last bounding box (or of the
default rectangle when there is none). -/
def Obstacle.right : Obstacle → Int
  | .barrier b => b.image.right
  | .platform p => ((p.bounding_boxes.getLast?).getD Rect.zeroRect).right

/-- `Obstacle::check_intersection`, dispatched over the two implementers. -/
def Obstacle.check_intersection (o : Obstacle) (boyBox : Rect)
    (m : RedHatBoyStateMachine) : RedHatBoyStateMachine :=
  match o with
  | .barrier b => b.check_intersection boyBox m
  | .platform p => p.check_intersection boyBox m

/-- game.rs `rightmost`: the maximum `right()` over the list, or 0. -/
def rightmost (obstacle_list : List Obstacle) : Int :=
  ((obstacle_list.map Obstacle.right).max?).getD 0

/-- segment.rs `STONE_ON_GROUND`. -/
def STONE_ON_GROUND : Int := 550

/-- segment.rs `INITIAL_STONE_OFFSET`. -/
def INITIAL_STONE_OFFSET : Int := 150

/-- game.rs `FIRST_PLATFORM`. -/
def FIRST_PLATFORM : Int := 370

/-- game.rs `LOW_PLATFORM`. -/
def LOW_PLATFORM : Int := 420

/-- game.rs `HIGH_PLATFORM`. -/
def HIGH_PLATFORM : Int := 375

/-- segment.rs `FLOATING_PLATFORM_BOUNDING_BOXES`. -/
def FLOATING_PLATFORM_BOUNDING_BOXES : List Rect :=
  [Rect.new_from_x_y 0 0 60 54,
   Rect.new_from_x_y 60 0 (384 - 60 * 2) 93,
   Rect.new_from_x_y (384 - 60) 0 60 54]

/-- segment.rs `create_floating_platform`. -/
def create_floating_platform (position : Point) : Platform :=
  Platform.new position FLOATING_PLATFORM_BOUNDING_BOXES

/-- segment.rs `create_cliff_platform` (same bounding boxes, different
sprites; sprites are draw-only). -/
def create_cliff_platform (position : Point) : Platform :=
  Platform.new position FLOATING_PLATFORM_BOUNDING_BOXES

/-- segment.rs `stone_and_platform`: a stone barrier and a low floating
platform, shifted by `offset_x`.  The stone picture size comes from the
loaded image and is passed as `stoneWidth`/`stoneHeight`. -/
def stone_and_platform (stoneWidth stoneHeight offset_x : Int) : List Obstacle :=
  [.barrier
    ⟨⟨Rect.new_from_x_y (offset_x + INITIAL_STONE_OFFSET) STONE_ON_GROUND
        stoneWidth stoneHeight⟩⟩,
   .platform (create_floating_platform
      { x := offset_x + FIRST_PLATFORM, y := LOW_PLATFORM })]

/-- segment.rs `other_platform`: a single high cliff platform at `offset_x`. -/
def other_platform (offset_x : Int) : List Obstacle :=
  [.platform (create_cliff_platform
      { x := offset_x + FIRST_PLATFORM, y := HIGH_PLATFORM })]

/-- game.rs `Walk`: the orchestrator state relevant to the claims (the two
parallax backgrounds and the shared sprite sheet affect no claim and are
omitted; the stone image is kept as its size). -/
structure Walk where
  boy : RedHatBoyStateMachine
  obstacles : List Obstacle
  stoneWidth : Int
  stoneHeight : Int
  timeline : Int
deriving DecidableEq

/-- `Walk::velocity`: the scroll velocity, negative of the walking speed. -/
def Walk.velocity (w : Walk) : Int := -(w.boy.context.velocity.x)

/-- The `match next_segment` of `Walk::generate_next_segment`: the obstacle
list of the drawn template, placed at `timeline + OBSTACLE_BUFFER` (the Rust
rng draws from `0..2`, so only 0 and 1 occur). -/
def Walk.next_segment_obstacles (w : Walk) (next_segment : Nat) : List Obstacle :=
  match next_segment with
  | 0 => stone_and_platform w.stoneWidth w.stoneHeight (w.timeline + OBSTACLE_BUFFER)
  | 1 => other_platform (w.timeline + OBSTACLE_BUFFER)
  | _ => []

/-- `Walk::generate_next_segment`: place the drawn template at
`timeline + OBSTACLE_BUFFER`, set the timeline to the rightmost edge of the
new obstacles and append them to the obstacle list. -/
def Walk.generate_next_segment (w : Walk) (next_segment : Nat) : Walk :=
  { w with
    timeline := rightmost (w.next_segment_obstacles next_segment)
    obstacles := w.obstacles ++ w.next_segment_obstacles next_segment }

/-- The obstacle-generation step of `WalkTheDogState<Walking>::update`
(game.rs lines 175-179): generate a segment when the timeline is below
`TIMELINE_MINIMUM`, otherwise advance the timeline by the scroll velocity. -/
def Walk.generationStep (w : Walk) (next_segment : Nat) : Walk :=
  if w.timeline < TIMELINE_MINIMUM then
    w.generate_next_segment next_segment
  else
    { w with timeline := w.timeline + w.velocity }

/-- `Walk::reset`: a fresh character and a fresh `stone_and_platform` segment
at offset 0, timeline at its rightmost edge; assets are kept. -/
def Walk.reset (w : Walk) : Walk :=
  { boy := initialBoy
    obstacles := stone_and_platform w.stoneWidth w.stoneHeight 0
    stoneWidth := w.stoneWidth
    stoneHeight := w.stoneHeight
    timeline := rightmost (stone_and_platform w.stoneWidth w.stoneHeight 0) }

/-- game.rs `WalkTheDogStateMachine`: the top-level phases.  The `GameOver`
one-shot UI receiver is an external signal source and carries no core state. -/
inductive WalkTheDogStateMachine where
  | ready (walk : Walk)
  | walking (walk : Walk)
  | gameOver (walk : Walk)
deriving DecidableEq

/-- `WalkTheDogState<Walking>::end_game`: enter `GameOver` with the Walk
already reset (the UI drawing it also performs is external). -/
def end_game (walk : Walk) : WalkTheDogStateMachine :=
  .gameOver (Walk.reset walk)

/-- `WalkTheDogState<GameOver>::new_game`: on the new-game signal, re-enter
`Ready` with the same Walk (the UI teardown is external). -/
def new_game : WalkTheDogStateMachine → WalkTheDogStateMachine
  | .gameOver walk => .ready walk
  | m => m

/-- The GameOver round trip: knockout ends the game, then the new-game signal
fires. -/
def gameOverRoundTrip (walk : Walk) : WalkTheDogStateMachine :=
  new_game (end_game walk)

/-- The clamp invariant on a context: below the floor and below terminal
velocity. -/
def ClampCtx (c : RedHatBoyContext) : Prop :=
  c.position.y ≤ FLOOR ∧ c.velocity.y ≤ MAX_VELOCITY

/-- The clamp invariant on a machine state. -/
def ClampInv (m : RedHatBoyStateMachine) : Prop := ClampCtx m.context

/-- Character states reachable in the game: from the fresh character, via
`update()` ticks and the events the game code emits.  Every `Land(y)` the
game issues carries either `HEIGHT` (jump auto-landing, internal to
`update`) or the top edge of a platform bounding box (`LOW_PLATFORM` or
`HIGH_PLATFORM` for the two segment templates); all of these are at most
`HEIGHT`, which is the only fact recorded here. -/
inductive Reachable : RedHatBoyStateMachine → Prop where
  | init : Reachable initialBoy
  | runStep {m} : Reachable m → Reachable (m.transition .run)
  | slideStep {m} : Reachable m → Reachable (m.transition .slide)
  | jumpStep {m} : Reachable m → Reachable (m.transition .jump)
  | knockOutStep {m} : Reachable m → Reachable (m.transition .knockOut)
  | landStep {m} (y : Int) (hy : y ≤ HEIGHT) :
      Reachable m → Reachable (m.transition (.land y))
  | updateStep {m} : Reachable m → Reachable (m.transition .update)

/-- The per-state animation frame budget (`IDLE_FRAMES` etc.; `KnockedOut`
keeps the `Dead` animation of `Falling`). -/
def frameBudget : RedHatBoyStateMachine → Nat
  | .idle _ => IDLE_FRAMES
  | .running _ => RUNNING_FRAMES
  | .sliding _ => SLIDING_FRAMES
  | .jumping _ => JUMPING_FRAMES
  | .falling _ => FALLING_FRAMES
  | .knockedOut _ => FALLING_FRAMES

/-- The frame counter stays within the (closed) budget of the current state. -/
def FrameInv (m : RedHatBoyStateMachine) : Prop :=
  m.context.frame ≤ frameBudget m

/-- The rows of the transition table of `RedHatBoyStateMachine::transition`:
the (state, event) pairs with an explicit arm. -/
def inTable : RedHatBoyStateMachine → Event → Bool
  | .idle _, .run => true
  | .running _, .slide => true
  | .running _, .jump => true
  | .running _, .knockOut => true
  | .running _, .land _ => true
  | .jumping _, .knockOut => true
  | .jumping _, .land _ => true
  | .sliding _, .knockOut => true
  | .sliding _, .land _ => true
  | .knockedOut _, .land _ => true
  | _, .update => true
  | _, _ => false

theorem clampCtx_apply_velocity (c : RedHatBoyContext) :
    ClampCtx c.apply_velocity := by
  unfold ClampCtx RedHatBoyContext.apply_velocity
  exact ⟨min_le_right _ _, min_le_right _ _⟩

theorem clampCtx_update (c : RedHatBoyContext) (n : Nat) :
    ClampCtx (c.update n) :=
  clampCtx_apply_velocity _

theorem clampInv_update (m : RedHatBoyStateMachine) : ClampInv m.update := by
  cases m with
  | idle c => exact clampCtx_update c IDLE_FRAMES
  | running c => exact clampCtx_update c RUNNING_FRAMES
  | sliding c =>
    show ClampInv (slidingUpdate c)
    unfold slidingUpdate
    split
    · exact clampCtx_update c SLIDING_FRAMES
    · exact clampCtx_update c SLIDING_FRAMES
  | jumping c =>
    show ClampInv (jumpingUpdate c)
    unfold jumpingUpdate
    split
    · refine ⟨?_, (clampCtx_update c JUMPING_FRAMES).2⟩
      show HEIGHT - PLAYER_HEIGHT ≤ FLOOR
      decide
    · exact clampCtx_update c JUMPING_FRAMES
  | falling c =>
    show ClampInv (fallingUpdate c)
    unfold fallingUpdate
    split
    · exact clampCtx_update c FALLING_FRAMES
    · exact clampCtx_update c FALLING_FRAMES
  | knockedOut c => exact clampCtx_apply_velocity c

theorem clampInv_reachable {m : RedHatBoyStateMachine} (h : Reachable m) :
    ClampInv m := by
  induction h with
  | init => exact ⟨le_refl _, by decide⟩
  | runStep _ ih =>
    rename_i m _
    cases m <;> exact ih
  | slideStep _ ih =>
    rename_i m _
    cases m <;> exact ih
  | jumpStep _ ih =>
    rename_i m _
    cases m <;> first
      | exact ih
      | exact ⟨ih.1, by show JUMP_SPEED ≤ MAX_VELOCITY; decide⟩
  | knockOutStep _ ih =>
    rename_i m _
    cases m <;> exact ih
  | landStep y hy _ ih =>
    rename_i m _
    have hset : ∀ c : RedHatBoyContext, ClampCtx c → ClampCtx (c.set_on y) := by
      intro c hc
      refine ⟨?_, hc.2⟩
      show y - PLAYER_HEIGHT ≤ FLOOR
      unfold HEIGHT at hy
      unfold PLAYER_HEIGHT FLOOR HEIGHT
      omega
    cases m with
    | idle c => exact ih
    | running c => exact hset c ih
    | sliding c => exact hset c ih
    | jumping c => exact hset c ih
    | falling c => exact ih
    | knockedOut c => exact hset c ih
  | updateStep _ ih =>
    rename_i m _
    exact clampInv_update m

/-- Claim C1: for every reachable character state the context satisfies
`position.y ≤ FLOOR` and `velocity.y ≤ MAX_VELOCITY`; moreover, after an
`update()` tick the clamp invariant holds for every machine state (all six
variants, `KnockedOut` included), with no hypothesis on the pre-state. -/
theorem c1_clamp_invariant :
    (∀ m : RedHatBoyStateMachine, ClampInv m.update) ∧
    (∀ m : RedHatBoyStateMachine, Reachable m → ClampInv m) :=
  ⟨clampInv_update, fun _ h => clampInv_reachable h⟩

/-- Witness for C1 at concrete reachable states: the fresh character, and the
fresh character after one tick. -/
theorem c1_clamp_invariant_witness :
    ClampInv initialBoy ∧ ClampInv (initialBoy.update) :=
  ⟨c1_clamp_invariant.2 initialBoy Reachable.init,
   c1_clamp_invariant.2 initialBoy.update
     (Reachable.updateStep Reachable.init)⟩

theorem platform_check_some (p : Platform) (boyBox : Rect)
    (m : RedHatBoyStateMachine) (bb : Rect)
    (h : p.bounding_boxes.find? (fun r => boyBox.intersects r) = some bb) :
    p.check_intersection boyBox m =
      if 0 < m.context.velocity.y ∧ m.context.position.y < p.position.y then
        m.transition (Event.land bb.y)
      else
        m.transition Event.knockOut := by
  unfold Platform.check_intersection
  rw [h]

theorem platform_check_none (p : Platform) (boyBox : Rect)
    (m : RedHatBoyStateMachine)
    (h : p.bounding_boxes.find? (fun r => boyBox.intersects r) = none) :
    p.check_intersection boyBox m = m := by
  unfold Platform.check_intersection
  rw [h]

theorem transition_knockOut_falling (m : RedHatBoyStateMachine)
    (h : m.isRunning = true ∨ m.isSliding = true ∨ m.isJumping = true) :
    (m.transition Event.knockOut).isFalling = true := by
  cases m <;>
    simp_all [RedHatBoyStateMachine.isRunning, RedHatBoyStateMachine.isSliding,
      RedHatBoyStateMachine.isJumping, RedHatBoyStateMachine.isFalling,
      RedHatBoyStateMachine.transition]

theorem transition_knockOut_noop (m : RedHatBoyStateMachine)
    (h : m.isIdle = true ∨ m.isFalling = true ∨ m.isKnockedOut = true) :
    m.transition Event.knockOut = m := by
  cases m <;>
    simp_all [RedHatBoyStateMachine.isIdle, RedHatBoyStateMachine.isFalling,
      RedHatBoyStateMachine.isKnockedOut, RedHatBoyStateMachine.transition]

theorem transition_land_running (m : RedHatBoyStateMachine) (y : Int)
    (h : m.isRunning = true ∨ m.isJumping = true) :
    (m.transition (Event.land y)).isRunning = true := by
  cases m <;>
    simp_all [RedHatBoyStateMachine.isRunning, RedHatBoyStateMachine.isJumping,
      RedHatBoyStateMachine.transition]

theorem transition_land_sliding (m : RedHatBoyStateMachine) (y : Int)
    (h : m.isSliding = true) :
    m.transition (Event.land y) = .sliding (m.context.set_on y) := by
  cases m <;>
    simp_all [RedHatBoyStateMachine.isSliding, RedHatBoyStateMachine.transition,
      RedHatBoyStateMachine.context]

theorem transition_land_knockedOut (m : RedHatBoyStateMachine) (y : Int)
    (h : m.isKnockedOut = true) :
    m.transition (Event.land y) = .knockedOut (m.context.set_on y) := by
  cases m <;>
    simp_all [RedHatBoyStateMachine.isKnockedOut, RedHatBoyStateMachine.transition,
      RedHatBoyStateMachine.context]

theorem transition_land_noop (m : RedHatBoyStateMachine) (y : Int)
    (h : m.isIdle = true ∨ m.isFalling = true) :
    m.transition (Event.land y) = m := by
  cases m <;>
    simp_all [RedHatBoyStateMachine.isIdle, RedHatBoyStateMachine.isFalling,
      RedHatBoyStateMachine.transition]

/-- Concrete inputs refuting the outcome clause of claim C2: a character that
is already `KnockedOut`, overlapping a platform rectangle from below the
platform top while moving downward. -/
def c2ExampleContext : RedHatBoyContext :=
  { frame := 29, position := { x := 0, y := 450 }, velocity := { x := 0, y := 5 } }

/-- The `KnockedOut` machine state for the C2 counterexample. -/
def c2ExampleBoy : RedHatBoyStateMachine := .knockedOut c2ExampleContext

/-- A platform with top edge y = 400 for the C2 counterexample. -/
def c2ExamplePlatform : Platform :=
  Platform.new { x := 0, y := 400 } [Rect.new_from_x_y 0 0 100 100]

/-- A character collision box overlapping that platform. -/
def c2ExampleBoyBox : Rect := Rect.new_from_x_y 10 410 10 10

/-- Counterexample to claim C2 as stated: the collision box overlaps a
platform sub-rectangle, the landing condition fails (position.y = 450 is not
above the platform y = 400), so `check_intersection` issues the knock-out,
yet the resulting state is the unchanged `KnockedOut` state, not `Falling`. -/
theorem c2_counterexample :
    (c2ExamplePlatform.bounding_boxes.find?
        (fun r => c2ExampleBoyBox.intersects r)).isSome = true ∧
    ¬(0 < c2ExampleBoy.context.velocity.y ∧
        c2ExampleBoy.context.position.y < c2ExamplePlatform.position.y) ∧
    c2ExamplePlatform.check_intersection c2ExampleBoyBox c2ExampleBoy =
      c2ExampleBoy ∧
    (c2ExamplePlatform.check_intersection c2ExampleBoyBox c2ExampleBoy).isFalling
      = false := by
  decide

/-- Claim C2 (amended): on an overlap with the first overlapping platform
sub-rectangle `bb`, the landing condition `velocity.y > 0 ∧ position.y <
platform.y` issues `Land(bb.y)` — Running and Jumping characters end Running,
a Sliding character lands but stays Sliding, a KnockedOut character lands but
stays KnockedOut, Idle and Falling characters are unchanged — and every other
overlapping case issues `KnockOut` — Running, Sliding and Jumping characters
end Falling, while Idle, Falling and KnockedOut characters are unchanged.
With no overlap the character is unchanged. -/
theorem c2_platform_intersection :
    (∀ (p : Platform) (boyBox : Rect) (m : RedHatBoyStateMachine) (bb : Rect),
      p.bounding_boxes.find? (fun r => boyBox.intersects r) = some bb →
      p.check_intersection boyBox m =
        if 0 < m.context.velocity.y ∧ m.context.position.y < p.position.y then
          m.transition (Event.land bb.y)
        else
          m.transition Event.knockOut) ∧
    (∀ (p : Platform) (boyBox : Rect) (m : RedHatBoyStateMachine),
      p.bounding_boxes.find? (fun r => boyBox.intersects r) = none →
      p.check_intersection boyBox m = m) ∧
    (∀ (m : RedHatBoyStateMachine) (y : Int),
      ((m.isRunning = true ∨ m.isJumping = true) →
        (m.transition (Event.land y)).isRunning = true) ∧
      (m.isSliding = true →
        m.transition (Event.land y) = .sliding (m.context.set_on y)) ∧
      (m.isKnockedOut = true →
        m.transition (Event.land y) = .knockedOut (m.context.set_on y)) ∧
      ((m.isIdle = true ∨ m.isFalling = true) →
        m.transition (Event.land y) = m)) ∧
    (∀ m : RedHatBoyStateMachine,
      ((m.isRunning = true ∨ m.isSliding = true ∨ m.isJumping = true) →
        (m.transition Event.knockOut).isFalling = true) ∧
      ((m.isIdle = true ∨ m.isFalling = true ∨ m.isKnockedOut = true) →
        m.transition Event.knockOut = m)) := by
  refine ⟨platform_check_some, platform_check_none, fun m y => ?_, fun m => ?_⟩
  · exact ⟨transition_land_running m y, transition_land_sliding m y,
      transition_land_knockedOut m y, transition_land_noop m y⟩
  · exact ⟨transition_knockOut_falling m, transition_knockOut_noop m⟩

/-- A running character above the platform top, moving downward, for the C2
witness. -/
def c2WitnessBoy : RedHatBoyStateMachine :=
  .running { frame := 3, position := { x := 0, y := 300 },
             velocity := { x := 4, y := 5 } }

/-- Witness for C2 (amended) at concrete inputs: the landing branch fires and
produces the Running state landed on the platform top y = 400. -/
theorem c2_platform_intersection_witness :
    c2ExamplePlatform.check_intersection c2ExampleBoyBox c2WitnessBoy =
      c2WitnessBoy.transition (Event.land 400) ∧
    (c2ExamplePlatform.check_intersection c2ExampleBoyBox c2WitnessBoy).isRunning
      = true := by
  have h1 := c2_platform_intersection.1 c2ExamplePlatform c2ExampleBoyBox
    c2WitnessBoy (Rect.new_from_x_y 0 400 100 100) (by decide)
  have h2 := (c2_platform_intersection.2.2.1 c2WitnessBoy 400).1 (Or.inl rfl)
  have h3 :
      (if 0 < c2WitnessBoy.context.velocity.y ∧
          c2WitnessBoy.context.position.y < c2ExamplePlatform.position.y then
        c2WitnessBoy.transition (Event.land (Rect.new_from_x_y 0 400 100 100).y)
      else
        c2WitnessBoy.transition Event.knockOut) =
        c2WitnessBoy.transition (Event.land 400) := by
    decide
  refine ⟨h1.trans h3, ?_⟩
  rw [h1.trans h3]
  exact h2

/-- Context of an already knocked-out character for the C3 counterexample. -/
def c3ExampleContext : RedHatBoyContext :=
  { frame := 29, position := { x := 20, y := 479 }, velocity := { x := 0, y := 20 } }

/-- The `KnockedOut` machine state for the C3 counterexample. -/
def c3ExampleBoy : RedHatBoyStateMachine := .knockedOut c3ExampleContext

/-- A stone barrier for the C3 counterexample. -/
def c3ExampleBarrier : Barrier := ⟨⟨Rect.new_from_x_y 0 0 100 100⟩⟩

/-- A character collision box overlapping that barrier. -/
def c3ExampleBoyBox : Rect := Rect.new_from_x_y 10 10 10 10

/-- Counterexample to claim C3 as stated: the collision box overlaps the
barrier rectangle, yet for a `KnockedOut` character the knock-out event is a
no-op, so the resulting state is `KnockedOut`, not `Falling`. -/
theorem c3_counterexample :
    c3ExampleBoyBox.intersects c3ExampleBarrier.image.boundingBox = true ∧
    c3ExampleBarrier.check_intersection c3ExampleBoyBox c3ExampleBoy =
      c3ExampleBoy ∧
    (c3ExampleBarrier.check_intersection c3ExampleBoyBox c3ExampleBoy).isFalling
      = false := by
  decide

/-- Claim C3 (amended): on any overlap of the character collision box with
the barrier rectangle, `check_intersection` issues the `KnockOut` event
unconditionally — in particular independently of the velocity direction.
The event makes Running, Sliding and Jumping characters end `Falling`; for
Idle, Falling and KnockedOut characters it is a no-op.  Without overlap the
character is unchanged. -/
theorem c3_barrier_intersection :
    (∀ (b : Barrier) (boyBox : Rect) (m : RedHatBoyStateMachine),
      boyBox.intersects b.image.boundingBox = true →
      b.check_intersection boyBox m = m.transition Event.knockOut) ∧
    (∀ (b : Barrier) (boyBox : Rect) (m : RedHatBoyStateMachine),
      boyBox.intersects b.image.boundingBox = false →
      b.check_intersection boyBox m = m) ∧
    (∀ m : RedHatBoyStateMachine,
      ((m.isRunning = true ∨ m.isSliding = true ∨ m.isJumping = true) →
        (m.transition Event.knockOut).isFalling = true) ∧
      ((m.isIdle = true ∨ m.isFalling = true ∨ m.isKnockedOut = true) →
        m.transition Event.knockOut = m)) := by
  refine ⟨fun b boyBox m h => ?_, fun b boyBox m h => ?_, fun m =>
    ⟨transition_knockOut_falling m, transition_knockOut_noop m⟩⟩
  · unfold Barrier.check_intersection
    rw [h]
    rfl
  · unfold Barrier.check_intersection
    rw [h]
    rfl

/-- A sliding character hitting the C3 barrier, for the C3 witness. -/
def c3WitnessBoy : RedHatBoyStateMachine :=
  .sliding { frame := 7, position := { x := 0, y := 479 },
             velocity := { x := 4, y := -3 } }

/-- Witness for C3 (amended) at concrete inputs: a sliding character that
overlaps the barrier while moving upward still ends Falling. -/
theorem c3_barrier_intersection_witness :
    c3ExampleBarrier.check_intersection c3ExampleBoyBox c3WitnessBoy =
      c3WitnessBoy.transition Event.knockOut ∧
    (c3ExampleBarrier.check_intersection c3ExampleBoyBox c3WitnessBoy).isFalling
      = true := by
  have h1 := c3_barrier_intersection.1 c3ExampleBarrier c3ExampleBoyBox
    c3WitnessBoy (by decide)
  have h2 := (c3_barrier_intersection.2.2 c3WitnessBoy).1
    (Or.inr (Or.inl rfl))
  exact ⟨h1, h1 ▸ h2⟩

/-- Claim C4: a Jumping state completes the instant its `position.y` is at
least `FLOOR` after the physics step of `update()`: it transitions to Running
with the frame reset to 0, landing via `set_on HEIGHT` — ground level,
independent of any obstacle geometry — which puts `position.y` exactly at
`FLOOR`; while the post-step `position.y` is below `FLOOR`, `update()` leaves
the state Jumping. -/
theorem c4_jump_auto_landing :
    ∀ c : RedHatBoyContext,
      (FLOOR ≤ (c.update JUMPING_FRAMES).position.y →
        (RedHatBoyStateMachine.jumping c).update =
          .running (((c.update JUMPING_FRAMES).reset_frame).set_on HEIGHT) ∧
        (((c.update JUMPING_FRAMES).reset_frame).set_on HEIGHT).position.y
          = FLOOR ∧
        (((c.update JUMPING_FRAMES).reset_frame).set_on HEIGHT).frame = 0) ∧
      ((c.update JUMPING_FRAMES).position.y < FLOOR →
        (RedHatBoyStateMachine.jumping c).update =
          .jumping (c.update JUMPING_FRAMES)) := by
  intro c
  constructor
  · intro h
    refine ⟨?_, ?_, rfl⟩
    · show jumpingUpdate c = _
      unfold jumpingUpdate
      rw [if_pos h]
    · show HEIGHT - PLAYER_HEIGHT = FLOOR
      decide
  · intro h
    show jumpingUpdate c = _
    unfold jumpingUpdate
    rw [if_neg (not_le.mpr h)]

/-- A jumping character resting at the floor, for the C4 witness. -/
def c4WitnessLandingContext : RedHatBoyContext :=
  { frame := 0, position := { x := 0, y := 479 }, velocity := { x := 0, y := 0 } }

/-- A jumping character high above the floor, for the C4 witness. -/
def c4WitnessAirborneContext : RedHatBoyContext :=
  { frame := 0, position := { x := 0, y := 100 }, velocity := { x := 0, y := -5 } }

/-- Witness for C4 at concrete inputs, exercising both branches. -/
theorem c4_jump_auto_landing_witness :
    FLOOR ≤ (c4WitnessLandingContext.update JUMPING_FRAMES).position.y ∧
    (RedHatBoyStateMachine.jumping c4WitnessLandingContext).update =
      .running { frame := 0, position := { x := 0, y := 479 },
                 velocity := { x := 0, y := 1 } } ∧
    (c4WitnessAirborneContext.update JUMPING_FRAMES).position.y < FLOOR ∧
    (RedHatBoyStateMachine.jumping c4WitnessAirborneContext).update =
      .jumping { frame := 1, position := { x := 0, y := 95 },
                 velocity := { x := 0, y := -4 } } := by
  have h1 := (c4_jump_auto_landing c4WitnessLandingContext).1 (by decide)
  have h2 := (c4_jump_auto_landing c4WitnessAirborneContext).2 (by decide)
  exact ⟨by decide, h1.1.trans (by decide), by decide, h2.trans (by decide)⟩

theorem updateN_succ_right (m : RedHatBoyStateMachine) (n : Nat) :
    m.updateN (n + 1) = (m.updateN n).update := by
  induction n generalizing m with
  | zero => rfl
  | succ n ih =>
    show (m.update).updateN (n + 1) = _
    rw [ih]
    rfl

theorem sliding_updateN_of_lt (n : Nat) :
    ∀ c : RedHatBoyContext, c.frame + n < SLIDING_FRAMES →
      ∃ c2, (RedHatBoyStateMachine.sliding c).updateN n = .sliding c2 ∧
        c2.frame = c.frame + n := by
  induction n with
  | zero =>
    intro c _
    exact ⟨c, rfl, rfl⟩
  | succ n ih =>
    intro c h
    have hc : c.frame < SLIDING_FRAMES := by omega
    have hframe : (c.update SLIDING_FRAMES).frame = c.frame + 1 := by
      show (if c.frame < SLIDING_FRAMES then c.frame + 1 else 0) = c.frame + 1
      rw [if_pos hc]
    have hstep : (RedHatBoyStateMachine.sliding c).update =
        .sliding (c.update SLIDING_FRAMES) := by
      show slidingUpdate c = _
      unfold slidingUpdate
      rw [if_neg (by omega)]
    obtain ⟨c2, h1, h2⟩ := ih (c.update SLIDING_FRAMES) (by omega)
    refine ⟨c2, ?_, by omega⟩
    show ((RedHatBoyStateMachine.sliding c).update).updateN n = _
    rw [hstep]
    exact h1

/-- Claim C5: a Sliding state with `frame = 0` that receives exactly
`SLIDING_FRAMES` Update events has transitioned to Running with `frame = 0`,
while after only `SLIDING_FRAMES - 1` Update events it is still Sliding. -/
theorem c5_sliding_frames :
    ∀ c : RedHatBoyContext, c.frame = 0 →
      ((RedHatBoyStateMachine.sliding c).updateN (SLIDING_FRAMES - 1)).isSliding
        = true ∧
      ((RedHatBoyStateMachine.sliding c).updateN SLIDING_FRAMES).isRunning
        = true ∧
      ((RedHatBoyStateMachine.sliding c).updateN SLIDING_FRAMES).context.frame
        = 0 := by
  intro c h0
  have hS : SLIDING_FRAMES = 15 := rfl
  obtain ⟨c14, h14, hf14⟩ := sliding_updateN_of_lt 14 c (by omega)
  have hframe : (c14.update SLIDING_FRAMES).frame = c14.frame + 1 := by
    show (if c14.frame < SLIDING_FRAMES then c14.frame + 1 else 0) = c14.frame + 1
    rw [if_pos (by omega)]
  have hstep : (RedHatBoyStateMachine.sliding c14).update =
      .running (c14.update SLIDING_FRAMES).reset_frame := by
    show slidingUpdate c14 = _
    unfold slidingUpdate
    rw [if_pos (by omega)]
  have h15 : (RedHatBoyStateMachine.sliding c).updateN SLIDING_FRAMES =
      .running (c14.update SLIDING_FRAMES).reset_frame := by
    have := updateN_succ_right (RedHatBoyStateMachine.sliding c) 14
    rw [hS, this, h14, hstep]
    rfl
  refine ⟨?_, ?_, ?_⟩
  · rw [show SLIDING_FRAMES - 1 = 14 from rfl, h14]
    rfl
  · rw [h15]
    rfl
  · rw [h15]
    rfl

/-- Witness for C5: the fresh context has `frame = 0`. -/
theorem c5_sliding_frames_witness :
    ((RedHatBoyStateMachine.sliding initialContext).updateN
        (SLIDING_FRAMES - 1)).isSliding = true ∧
    ((RedHatBoyStateMachine.sliding initialContext).updateN
        SLIDING_FRAMES).isRunning = true ∧
    ((RedHatBoyStateMachine.sliding initialContext).updateN
        SLIDING_FRAMES).context.frame = 0 :=
  c5_sliding_frames initialContext rfl

/-- Claim C7: for every (state, event) pair that is not a row of the
transition table, `transition` returns the machine unchanged (it is total, so
it can never panic); in particular `KnockOut` on an Idle state is a no-op. -/
theorem c7_no_op_transitions :
    (∀ (m : RedHatBoyStateMachine) (e : Event),
      inTable m e = false → m.transition e = m) ∧
    (∀ c : RedHatBoyContext,
      (RedHatBoyStateMachine.idle c).transition Event.knockOut = .idle c) := by
  constructor
  · intro m e h
    cases m <;> cases e <;> first
      | rfl
      | (exfalso; simp [inTable] at h)
  · intro c
    rfl

/-- Witness for C7: `KnockOut` on the fresh Idle state is outside the table
and leaves the state unchanged. -/
theorem c7_no_op_transitions_witness :
    inTable initialBoy Event.knockOut = false ∧
    initialBoy.transition Event.knockOut = initialBoy :=
  ⟨rfl, c7_no_op_transitions.1 initialBoy Event.knockOut rfl⟩

theorem rightmost_stone_and_platform (sw sh off : Int) :
    rightmost (stone_and_platform sw sh off) =
      max (off + INITIAL_STONE_OFFSET + sw)
        (384 - 60 + (off + FIRST_PLATFORM) + 60) := rfl

theorem rightmost_other_platform (off : Int) :
    rightmost (other_platform off) =
      384 - 60 + (off + FIRST_PLATFORM) + 60 := rfl

theorem rightmost_next_segment_ge (w : Walk) (next_segment : Nat)
    (h : next_segment = 0 ∨ next_segment = 1) :
    w.timeline + OBSTACLE_BUFFER ≤
      rightmost (w.next_segment_obstacles next_segment) := by
  have h1 : INITIAL_STONE_OFFSET = 150 := rfl
  have h2 : FIRST_PLATFORM = 370 := rfl
  rcases h with h | h <;> subst h
  · show w.timeline + OBSTACLE_BUFFER ≤
      rightmost (stone_and_platform w.stoneWidth w.stoneHeight
        (w.timeline + OBSTACLE_BUFFER))
    rw [rightmost_stone_and_platform]
    omega
  · show w.timeline + OBSTACLE_BUFFER ≤
      rightmost (other_platform (w.timeline + OBSTACLE_BUFFER))
    rw [rightmost_other_platform]
    omega

/-- Claim C6: on a tick with `timeline < TIMELINE_MINIMUM`, exactly one
segment — the template drawn (stone-and-platform for 0, the cliff platform
for 1) placed at `timeline + OBSTACLE_BUFFER` — is appended to the obstacle
list, and the timeline is set to the rightmost right edge of the new
obstacles, which is at least `timeline + OBSTACLE_BUFFER`; on a tick with
`timeline ≥ TIMELINE_MINIMUM`, no obstacles are added and the timeline moves
by exactly the (negative) scroll velocity. -/
theorem c6_segment_generation :
    ∀ (w : Walk) (next_segment : Nat),
      next_segment = 0 ∨ next_segment = 1 →
      (w.timeline < TIMELINE_MINIMUM →
        (w.generationStep next_segment).obstacles =
          w.obstacles ++ w.next_segment_obstacles next_segment ∧
        (w.generationStep next_segment).timeline =
          rightmost (w.next_segment_obstacles next_segment) ∧
        w.timeline + OBSTACLE_BUFFER ≤ (w.generationStep next_segment).timeline) ∧
      (TIMELINE_MINIMUM ≤ w.timeline →
        (w.generationStep next_segment).obstacles = w.obstacles ∧
        (w.generationStep next_segment).timeline = w.timeline + w.velocity) ∧
      w.next_segment_obstacles 0 =
        stone_and_platform w.stoneWidth w.stoneHeight (w.timeline + OBSTACLE_BUFFER) ∧
      w.next_segment_obstacles 1 =
        other_platform (w.timeline + OBSTACLE_BUFFER) := by
  intro w next_segment h
  refine ⟨fun hlt => ?_, fun hge => ?_, rfl, rfl⟩
  · have hg : w.generationStep next_segment = w.generate_next_segment next_segment := by
      unfold Walk.generationStep
      rw [if_pos hlt]
    rw [hg]
    exact ⟨rfl, rfl, rightmost_next_segment_ge w next_segment h⟩
  · have hg : w.generationStep next_segment =
        { w with timeline := w.timeline + w.velocity } := by
      unfold Walk.generationStep
      rw [if_neg (not_lt.mpr hge)]
    rw [hg]
    exact ⟨rfl, rfl⟩

/-- A concrete Walk below the generation threshold, for the C6 witness
(matching the spec example `timeline = 990`). -/
def c6WitnessWalk : Walk :=
  { boy := initialBoy, obstacles := [], stoneWidth := 90, stoneHeight := 54,
    timeline := 990 }

/-- Witness for C6 at the concrete spec example: with `timeline = 990` the
stone-and-platform segment is generated at `x = 990 + OBSTACLE_BUFFER` and
the new timeline, the rightmost edge of the new obstacles, is at least
`990 + OBSTACLE_BUFFER`. -/
theorem c6_segment_generation_witness :
    (c6WitnessWalk.generationStep 0).obstacles =
      stone_and_platform 90 54 (990 + OBSTACLE_BUFFER) ∧
    990 + OBSTACLE_BUFFER ≤ (c6WitnessWalk.generationStep 0).timeline := by
  have h := c6_segment_generation c6WitnessWalk 0 (Or.inl rfl)
  have h1 := (h.1 (by decide)).1
  have h2 := (h.1 (by decide)).2.2
  exact ⟨h1.trans (by decide), h2⟩

/-- Claim C8: the GameOver round trip (knockout ends the Walking game and the
new-game signal then fires) re-enters Ready with the reset Walk: the
character equals the freshly constructed one — starting position, zero
velocity, frame 0, state Idle — the obstacle list equals a fresh
`stone_and_platform` generation at offset 0, and the timeline equals the
rightmost edge of that segment. -/
theorem c8_game_over_round_trip :
    ∀ walk : Walk,
      gameOverRoundTrip walk = .ready (Walk.reset walk) ∧
      (Walk.reset walk).boy = initialBoy ∧
      initialBoy = .idle ⟨0, ⟨STARTING_POINT, FLOOR⟩, ⟨0, 0⟩⟩ ∧
      (Walk.reset walk).obstacles =
        stone_and_platform walk.stoneWidth walk.stoneHeight 0 ∧
      (Walk.reset walk).timeline =
        rightmost (stone_and_platform walk.stoneWidth walk.stoneHeight 0) :=
  fun _ => ⟨rfl, rfl, rfl, rfl, rfl⟩

/-- Counterexample to claim C9 as stated: starting from the fresh Idle
character (frame 0) and ticking `update()` `IDLE_FRAMES` times, the state is
still Idle and the frame counter equals `IDLE_FRAMES` = 29 — outside the
claimed half-open range `[0, 29)`. -/
theorem c9_counterexample :
    (initialBoy.updateN IDLE_FRAMES).isIdle = true ∧
    (initialBoy.updateN IDLE_FRAMES).context.frame = IDLE_FRAMES ∧
    ¬((initialBoy.updateN IDLE_FRAMES).context.frame < IDLE_FRAMES) := by
  decide

/-- Claim C9 (amended): the frame counter stays in the closed range
`[0, frame-count]` of the current state (frame ≤ 29 in Idle, ≤ 23 in
Running, ≤ 15 in Sliding, ≤ 35 in Jumping, ≤ 29 in Falling and KnockedOut):
it holds for the fresh character and is preserved by every `update()` tick,
and the context update increments the frame while it is below the budget and
wraps it to 0 once it has reached the budget. -/
theorem c9_frame_bound :
    FrameInv initialBoy ∧
    (∀ m : RedHatBoyStateMachine, FrameInv m → FrameInv m.update) ∧
    (∀ (c : RedHatBoyContext) (n : Nat),
      (c.update n).frame = if c.frame < n then c.frame + 1 else 0) := by
  refine ⟨Nat.zero_le _, ?_, fun c n => rfl⟩
  intro m h
  cases m with
  | idle c =>
    have hc : c.frame ≤ IDLE_FRAMES := h
    show (c.update IDLE_FRAMES).frame ≤ IDLE_FRAMES
    have e : (c.update IDLE_FRAMES).frame =
        if c.frame < IDLE_FRAMES then c.frame + 1 else 0 := rfl
    rw [e]
    split <;> omega
  | running c =>
    have hc : c.frame ≤ RUNNING_FRAMES := h
    show (c.update RUNNING_FRAMES).frame ≤ RUNNING_FRAMES
    have e : (c.update RUNNING_FRAMES).frame =
        if c.frame < RUNNING_FRAMES then c.frame + 1 else 0 := rfl
    rw [e]
    split <;> omega
  | sliding c =>
    show FrameInv (slidingUpdate c)
    unfold slidingUpdate
    split
    · exact Nat.zero_le _
    · rename_i hlt
      show (c.update SLIDING_FRAMES).frame ≤ SLIDING_FRAMES
      omega
  | jumping c =>
    have hc : c.frame ≤ JUMPING_FRAMES := h
    show FrameInv (jumpingUpdate c)
    unfold jumpingUpdate
    split
    · exact Nat.zero_le _
    · show (c.update JUMPING_FRAMES).frame ≤ JUMPING_FRAMES
      have e : (c.update JUMPING_FRAMES).frame =
          if c.frame < JUMPING_FRAMES then c.frame + 1 else 0 := rfl
      rw [e]
      split <;> omega
  | falling c =>
    have hc : c.frame ≤ FALLING_FRAMES := h
    have e : (c.update FALLING_FRAMES).frame =
        if c.frame < FALLING_FRAMES then c.frame + 1 else 0 := rfl
    show FrameInv (fallingUpdate c)
    unfold fallingUpdate
    split
    · show (c.update FALLING_FRAMES).frame ≤ FALLING_FRAMES
      rw [e]
      split <;> omega
    · show (c.update FALLING_FRAMES).frame ≤ FALLING_FRAMES
      rw [e]
      split <;> omega
  | knockedOut c =>
    exact h

/-- Witness for C9 (amended): the frame invariant at the fresh character and
its preservation through one concrete tick. -/
theorem c9_frame_bound_witness :
    FrameInv initialBoy ∧ FrameInv initialBoy.update :=
  ⟨c9_frame_bound.1, c9_frame_bound.2.1 initialBoy c9_frame_bound.1⟩

/-- Claim C10: `update()` on a KnockedOut state applies exactly the
`apply_velocity` integration (position.y and velocity.y move with both
clamps, x components untouched) and leaves the frame counter unchanged — for
any number of ticks — while each of the other five states has contexts whose
frame the next `update()` advances. -/
theorem c10_knocked_out_update :
    (∀ c : RedHatBoyContext,
      (RedHatBoyStateMachine.knockedOut c).update = .knockedOut c.apply_velocity ∧
      c.apply_velocity.frame = c.frame ∧
      c.apply_velocity.position.y = min (c.position.y + c.velocity.y) FLOOR ∧
      c.apply_velocity.velocity.y = min (c.velocity.y + GRAVITY) MAX_VELOCITY ∧
      c.apply_velocity.position.x = c.position.x ∧
      c.apply_velocity.velocity.x = c.velocity.x) ∧
    (∀ (c : RedHatBoyContext) (n : Nat),
      ((RedHatBoyStateMachine.knockedOut c).updateN n).context.frame = c.frame) ∧
    (∃ c : RedHatBoyContext,
      ((RedHatBoyStateMachine.idle c).update).context.frame = c.frame + 1) ∧
    (∃ c : RedHatBoyContext,
      ((RedHatBoyStateMachine.running c).update).context.frame = c.frame + 1) ∧
    (∃ c : RedHatBoyContext,
      ((RedHatBoyStateMachine.sliding c).update).context.frame = c.frame + 1) ∧
    (∃ c : RedHatBoyContext,
      ((RedHatBoyStateMachine.jumping c).update).context.frame = c.frame + 1) ∧
    (∃ c : RedHatBoyContext,
      ((RedHatBoyStateMachine.falling c).update).context.frame = c.frame + 1) := by
  refine ⟨fun c => ⟨rfl, rfl, rfl, rfl, rfl, rfl⟩, ?_,
    ⟨initialContext, by decide⟩, ⟨initialContext, by decide⟩,
    ⟨initialContext, by decide⟩, ⟨c4WitnessAirborneContext, by decide⟩,
    ⟨initialContext, by decide⟩⟩
  intro c n
  induction n generalizing c with
  | zero => rfl
  | succ n ih => exact ih c.apply_velocity
